import Mathlib

/-!
Verification of the wb800 device-communication layer.

Shallow embedding of `custom_components/wb800/client.py` and
`custom_components/wb800/sensor.py`.

Modelling conventions:
* Python floats are modelled as exact rationals (`ℚ`); the arithmetic of the
  energy integrator and of the metric fallback is stated over `ℚ`.
* Timestamps are rationals measured in seconds (the code works with
  `datetime` differences converted via `total_seconds() / 3600.0`).
* A BeautifulSoup document is abstracted to the lists of elements the
  fixed CSS selectors of the source return: the outlet card blocks, the
  candidate aggregate-metric table cells and the candidate voltage spans.
  Element text is stored as the raw string; the places where the source
  calls `get_text(strip=True)` / `.strip()` apply `pyStrip` explicitly.
* Python string/number helpers (`str.strip`, `str.replace(c, "")`,
  `int(...)`, `float(...)` on plain decimal literals, `round(x, 2)`)
  are reproduced as executable Lean functions.
-/

namespace WB800

/-! ## Python string and number primitives -/

/-- The whitespace characters stripped by Python `str.strip()`
(ASCII fragment). -/
def isPySpace (c : Char) : Bool :=
  c = ' ' || c = '\t' || c = '\n' || c = '\r' || c = '\x0b' || c = '\x0c'

/-- Python `str.strip()` on a character list. -/
def pyStripChars (cs : List Char) : List Char :=
  ((cs.dropWhile isPySpace).reverse.dropWhile isPySpace).reverse

/-- Python `s.strip()`. -/
def pyStrip (s : String) : String :=
  ⟨pyStripChars s.data⟩

/-- Python `s.replace(c, "")` for a one-character pattern: removes every
occurrence of `c`. -/
def removeAllChar (c : Char) (s : String) : String :=
  ⟨s.data.filter (fun d => d ≠ c)⟩

/-- Bool substring test, modelling Python `needle in hay`. -/
def strContains (hay needle : String) : Bool :=
  hay.data.tails.any (fun t => needle.data.isPrefixOf t)

/-- Numeric value of a digit character. -/
def charDigitVal (c : Char) : Nat := c.toNat - 48

/-- Value of a digit string (`0` for the empty list); only meaningful when
every character is a digit. -/
def digitsVal (cs : List Char) : Nat :=
  cs.foldl (fun acc c => acc * 10 + charDigitVal c) 0

/-- Python `int(s)` on an already-stripped string: optional sign followed by
a non-empty run of digits, `none` (`ValueError`) otherwise. -/
def pyInt? (s : String) : Option Int :=
  let core : List Char → Option Int := fun cs =>
    if cs ≠ [] && cs.all Char.isDigit then some (digitsVal cs) else none
  match pyStripChars s.data with
  | '-' :: rest => (core rest).map (fun n => -n)
  | '+' :: rest => core rest
  | cs => core cs

/-- Unsigned decimal literal: `digits`, `digits.digits`, `.digits` or
`digits.` with at least one digit overall. Models the plain-decimal
fragment of Python `float(s)` (exponents, `inf`/`nan` and underscores,
which never occur in the device pages, are out of the modelled fragment
and map to `none`). -/
def pyUFloat? (cs : List Char) : Option ℚ :=
  let intPart := cs.takeWhile (fun c => c ≠ '.')
  let rest := cs.dropWhile (fun c => c ≠ '.')
  match rest with
  | [] =>
    if intPart ≠ [] && intPart.all Char.isDigit then
      some ((digitsVal intPart : ℚ))
    else none
  | _ :: frac =>
    if frac.all (fun c => c ≠ '.') &&
        (intPart ≠ [] || frac ≠ []) &&
        intPart.all Char.isDigit && frac.all Char.isDigit then
      some ((digitsVal intPart : ℚ) + (digitsVal frac : ℚ) / (10 : ℚ) ^ frac.length)
    else none

/-- Python `float(s)` on the decimal fragment: strips whitespace, optional
sign, then an unsigned decimal literal. -/
def pyFloat? (s : String) : Option ℚ :=
  match pyStripChars s.data with
  | '-' :: rest => (pyUFloat? rest).map (fun q => -q)
  | '+' :: rest => pyUFloat? rest
  | cs => pyUFloat? cs

/-- Round a rational to the nearest integer, ties to even — the rounding
used by Python `round`. -/
def roundHalfEvenInt (q : ℚ) : ℤ :=
  let f := ⌊q⌋
  let r := q - f
  if r < 1/2 then f
  else if 1/2 < r then f + 1
  else if Even f then f else f + 1

/-- Python `round(x, 2)` (exact for values whose binary float is exact). -/
def pyRound2 (q : ℚ) : ℚ :=
  (roundHalfEvenInt (q * 100) : ℚ) / 100

/-! ## Data model (`client.py` dataclasses) -/

/-- The `OutletInfo` dataclass. -/
structure OutletInfo where
  number : ℤ
  name : String
  is_on : Bool
  is_reset_only : Bool
  watts : Option ℚ
  amps : Option ℚ
deriving DecidableEq, Repr

/-- The `DeviceMetrics` dataclass. -/
structure DeviceMetrics where
  voltage : Option ℚ
  total_watts : Option ℚ
  total_amps : Option ℚ
deriving DecidableEq, Repr

/-! ## Abstract HTML document

The extractor only looks at the elements matched by its fixed CSS
selectors; an arbitrary (possibly empty or non-HTML) input string is
abstracted to the lists of matched elements, which are empty for an
unparseable document. -/

/-- The `input[id^='outlet']` toggle control of an outlet card:
presence of the `checked` / `disabled` attributes. -/
structure ToggleControl where
  checked : Bool
  disabled : Bool
deriving DecidableEq, Repr

/-- One `div.grid-grey > div.grid-block` outlet card, reduced to the
sub-elements the parser selects inside it.  `none` models a selector that
matches nothing; the strings are element text before any stripping. -/
structure OutletBlock where
  numberText : Option String
  nameText : Option String
  toggle : Option ToggleControl
  statTexts : List String
deriving DecidableEq, Repr

/-- One candidate aggregate-metrics `td`: its joined text, and — when the
cell's parent has a following `td` sibling — that sibling's text split
into lines (`get_text("\n", strip=True).split("\n")`). -/
structure MetricCell where
  text : String
  pairLines : Option (List String)
deriving DecidableEq, Repr

/-- A status page as seen through the extractor's selectors. -/
structure HtmlDoc where
  outletBlocks : List OutletBlock
  powerCells : List MetricCell
  voltSpans : List String
deriving DecidableEq, Repr

/-- A document in which no selector matches anything: the abstraction of
the empty string and of any unparseable / non-HTML input. -/
def emptyHtmlDoc : HtmlDoc := ⟨[], [], []⟩

/-! ## HTML extractor (`parse_outlets_from_html`, `parse_metrics_from_html`) -/

/-- The loop body of `parse_outlets_from_html` for one card block:
`continue` (here `none`) when the index label, name label or toggle input
is missing or the index text is not an `int`; otherwise build the
`OutletInfo`, reading watts/amps from the first two stat fragments with
`W`/`A` removed, each field omitted on a float parse failure. -/
def parseOutletBlock (b : OutletBlock) : Option OutletInfo :=
  match b.numberText, b.nameText, b.toggle with
  | some numTxt, some nameTxt, some tog =>
    match pyInt? (pyStrip numTxt) with
    | none => none
    | some number =>
      let wa : Option ℚ × Option ℚ :=
        match b.statTexts with
        | w :: a :: _ =>
          (pyFloat? (pyStrip (removeAllChar 'W' (pyStrip w))),
           pyFloat? (pyStrip (removeAllChar 'A' (pyStrip a))))
        | _ => (none, none)
      some ⟨number, pyStrip nameTxt, tog.checked, tog.disabled, wa.1, wa.2⟩
  | _, _, _ => none

/-- The comparison used by `outlets.sort(key=lambda o: o.number)`. -/
def byNumber (a b : OutletInfo) : Prop := a.number ≤ b.number

instance : DecidableRel byNumber := fun a b => inferInstanceAs (Decidable (a.number ≤ b.number))

instance : IsTotal OutletInfo byNumber := ⟨fun a b => le_total a.number b.number⟩

instance : IsTrans OutletInfo byNumber := ⟨fun _ _ _ h h' => le_trans h h'⟩

/-- Model of `WattBoxClient.parse_outlets_from_html`: parse each card block,
skipping malformed ones, then stable-sort ascending by outlet number
(`list.sort` is a stable sort; insertion sort realizes the same
function). -/
def parse_outlets_from_html (doc : HtmlDoc) : List OutletInfo :=
  List.insertionSort byNumber (doc.outletBlocks.filterMap parseOutletBlock)

/-- The condition selecting the aggregate label cell:
`"POWER" in text and "CURRENT" in text`. -/
def isPowerCurrentCell (c : MetricCell) : Bool :=
  strContains c.text "POWER" && strContains c.text "CURRENT"

/-- Model of `WattBoxClient.parse_metrics_from_html`: the first cell containing
both `POWER` and `CURRENT` supplies the totals from its paired cell's
first two lines (`W`/`A` removed, omit on parse failure); the first
stripped voltage span text ending in `V` supplies the voltage. -/
def parse_metrics_from_html (doc : HtmlDoc) : DeviceMetrics :=
  let totals : Option ℚ × Option ℚ :=
    match doc.powerCells.find? isPowerCurrentCell with
    | some td =>
      match td.pairLines with
      | some raw =>
        match raw.map pyStrip with
        | l0 :: l1 :: _ =>
          (pyFloat? (pyStrip (removeAllChar 'W' l0)),
           pyFloat? (pyStrip (removeAllChar 'A' l1)))
        | _ => (none, none)
      | none => (none, none)
    | none => (none, none)
  let voltage : Option ℚ :=
    match (doc.voltSpans.map pyStrip).find? (fun t => t.data.getLast? = some 'V') with
    | some t => pyFloat? (pyStrip (removeAllChar 'V' t))
    | none => none
  ⟨voltage, totals.1, totals.2⟩

/-! ## Energy integrator (`WattBoxEnergySensor` / `WattBoxOutletEnergySensor`)

The two sensor classes in `sensor.py` duplicate the same
`_handle_coordinator_update` integration logic (lines 453-495 and
639-690); `observe` is that shared logic once the power sample has been
extracted from the coordinator data. -/

/-- The integrator fields of an energy-sensor instance:
`_last_power`, `_last_update`, `_total_energy`. -/
structure IntegratorState where
  lastPower : Option ℚ
  lastUpdate : Option ℚ
  totalEnergy : ℚ
deriving DecidableEq, Repr

/-- One `_handle_coordinator_update` step with power sample `power` (in
watts, `none` when no sample was obtained) at time `now` (in seconds):
a `none` sample returns before touching any state; otherwise integrate
(only when both `_last_power` and `_last_update` are set) and then record
the new sample.  `MAX_TIME_GAP_HOURS = 24.0`. -/
def observe (st : IntegratorState) (power : Option ℚ) (now : ℚ) : IntegratorState :=
  match power with
  | none => st
  | some p =>
    let add : ℚ :=
      match st.lastPower, st.lastUpdate with
      | some lastP, some lastT =>
        let dtHours := (now - lastT) / 3600
        if dtHours < 0 then 0
        else if dtHours > 24 then p * 24 / 1000
        else if dtHours > 0 then ((p + lastP) / 2) * dtHours / 1000
        else 0
      | _, _ => 0
    { lastPower := some p, lastUpdate := some now, totalEnergy := st.totalEnergy + add }

/-- A whole run of coordinator updates, oldest first. -/
def observeAll (st : IntegratorState) (samples : List (Option ℚ × ℚ)) : IntegratorState :=
  samples.foldl (fun s x => observe s x.1 x.2) st

/-- The power-sample lookup of `WattBoxOutletEnergySensor`: the `watts`
of the first outlet whose number matches, `none` when the outlet is
missing or its watts are `none`. -/
def outletWatts (outlets : List OutletInfo) (n : ℤ) : Option ℚ :=
  (outlets.find? (fun o => o.number = n)).bind OutletInfo.watts

/-- Model of `WattBoxOutletEnergySensor._handle_coordinator_update`: no-op without
coordinator data, otherwise one `observe` step on the looked-up outlet
watts. -/
def outlet_handle_coordinator_update (st : IntegratorState)
    (data : Option (List OutletInfo)) (n : ℤ) (now : ℚ) : IntegratorState :=
  match data with
  | none => st
  | some outlets => observe st (outletWatts outlets n) now

/-- Model of the `WattBoxOutletEnergySensor.async_added_to_hass` restore step: an
external restore that overwrites the accumulator (and optionally the last
sample data) from persisted state. -/
def restoreState (st : IntegratorState) (energy : ℚ) (lastT : Option ℚ)
    (lastP : Option ℚ) : IntegratorState :=
  { totalEnergy := energy,
    lastUpdate := lastT.orElse (fun _ => st.lastUpdate),
    lastPower := lastP.orElse (fun _ => st.lastPower) }

/-! ## Device client (`WattBoxClient`)

The HTTP transport is abstracted to a function from requests to
responses; each client operation returns its final mutable-attribute
state, the list of HTTP requests it issued, and either a value or the
message of the exception it raised. -/

/-- The command endpoints `/outlet/on`, `/outlet/off`, `/outlet/reset`. -/
inductive CmdKind
  | on
  | off
  | reset
deriving DecidableEq, Repr

/-- The HTTP requests the client can issue.  `session…` requests go
through the aiohttp session (carrying Basic credentials when
`_basic_auth` is set), `digest…` requests through the httpx Digest
client. -/
inductive Req
  | basicProbe
  | sessionGetLogin
  | sessionPostLogin
  | sessionGetMainVerify
  | sessionGetMain (withBasicAuth : Bool)
  | sessionGetCmd (k : CmdKind) (o : ℤ) (withBasicAuth : Bool)
  | digestProbe
  | digestPostLogin
  | digestGetMain
  | digestGetCmd (k : CmdKind) (o : ℤ)
deriving DecidableEq, Repr

/-- An HTTP response: status, the `Location` and `WWW-Authenticate`
headers, and the parsed body.  For requests issued with redirect
following enabled the response is the final one after redirects. -/
structure HttpResponse where
  status : Nat
  location : String
  wwwAuth : String
  body : HtmlDoc

/-- The device side of the wire: what each request comes back with. -/
def Device := Req → HttpResponse

/-- The mutable auth attributes of a `WattBoxClient`: whether
`_basic_auth` is set and whether `_httpx_client` has been created. -/
structure ClientState where
  basicAuth : Bool
  httpxActive : Bool
deriving DecidableEq, Repr

/-- A fresh client: neither attribute set. -/
def initState : ClientState := ⟨false, false⟩

/-- The outcome of `_ensure_logged_in` or of a command: resulting
attribute state, issued requests, and the raised exception if any. -/
structure StepResult where
  state : ClientState
  trace : List Req
  err : Option String
deriving DecidableEq, Repr

/-- httpx `Response.is_redirect`: a well-known 3xx status with a
`Location` header. -/
def isRedirect (r : HttpResponse) : Bool :=
  (r.status = 301 || r.status = 302 || r.status = 303 ||
   r.status = 307 || r.status = 308) && r.location ≠ ""

/-- Body of `_ensure_logged_in` after the initial Basic probe response `r`:
the branch on `r` (lines 89-149 of `client.py`).  The returned trace
lists the requests issued after the probe. -/
def ensureAfterProbe (dev : Device) (st : ClientState) (r : HttpResponse) : StepResult :=
  if r.status = 200 || r.status = 304 then
    ⟨{ st with basicAuth := true }, [], none⟩
  else if strContains r.location "/login" then
    let loginResp := dev .sessionPostLogin
    if ¬(loginResp.status = 200 || loginResp.status = 302) then
      ⟨st, [.sessionGetLogin, .sessionPostLogin], some "Login failed"⟩
    else
      let verify := dev .sessionGetMainVerify
      if verify.status ≠ 200 then
        ⟨st, [.sessionGetLogin, .sessionPostLogin, .sessionGetMainVerify],
         some "Login did not grant access"⟩
      else
        ⟨{ st with basicAuth := false },
         [.sessionGetLogin, .sessionPostLogin, .sessionGetMainVerify], none⟩
  else if r.status = 401 then
    if strContains r.wwwAuth "Digest" then
      let st1 := { st with httpxActive := true }
      let probe := dev .digestProbe
      if probe.status = 200 || probe.status = 304 then
        ⟨{ st1 with basicAuth := false }, [.digestProbe], none⟩
      else if isRedirect probe && strContains probe.location "/login" then
        let r2 := dev .digestPostLogin
        if ¬(r2.status = 200 || r2.status = 302) then
          ⟨st1, [.digestProbe, .digestPostLogin], some "Login failed after Digest"⟩
        else
          let r3 := dev .digestGetMain
          if r3.status ≠ 200 then
            ⟨st1, [.digestProbe, .digestPostLogin, .digestGetMain],
             some "Login did not grant access after Digest"⟩
          else
            ⟨st1, [.digestProbe, .digestPostLogin, .digestGetMain], none⟩
      else
        ⟨st1, [.digestProbe], some "Unauthorized"⟩
    else
      ⟨st, [], some "Unauthorized"⟩
  else
    ⟨{ st with basicAuth := true }, [], none⟩

/-- Model of `WattBoxClient._ensure_logged_in`: issue the Basic-credential probe
of `/main` and branch on its response.  No step is skipped when a
strategy was already confirmed: the method re-runs in full on every
call. -/
def ensure_logged_in (dev : Device) (st : ClientState) : StepResult :=
  let r := dev .basicProbe
  let k := ensureAfterProbe dev st r
  ⟨k.state, .basicProbe :: k.trace, k.err⟩

/-- Result of a fetch operation. -/
structure OpResult (α : Type) where
  state : ClientState
  trace : List Req
  result : Except String α

/-- The duplicated `/main` fetch block of `async_fetch_outlets` /
`async_fetch_metrics`: GET `/main` on the active transport and
`raise_for_status`.  The two transports raise differently: httpx's
`raise_for_status` raises `HTTPStatusError` for every non-2xx response,
aiohttp's only for statuses ≥ 400. -/
def getMainHtml (dev : Device) (st : ClientState) : Req × Except String HtmlDoc :=
  if st.httpxActive then
    let r := dev .digestGetMain
    if 200 ≤ r.status ∧ r.status < 300 then (.digestGetMain, .ok r.body)
    else (.digestGetMain, .error "HTTPStatusError")
  else
    let r := dev (.sessionGetMain st.basicAuth)
    if 400 ≤ r.status then (.sessionGetMain st.basicAuth, .error "HTTPStatusError")
    else (.sessionGetMain st.basicAuth, .ok r.body)

/-- Model of `WattBoxClient.async_fetch_outlets`. -/
def async_fetch_outlets (dev : Device) (st : ClientState) : OpResult (List OutletInfo) :=
  let e := ensure_logged_in dev st
  match e.err with
  | some msg => ⟨e.state, e.trace, .error msg⟩
  | none =>
    let (req, html) := getMainHtml dev e.state
    match html with
    | .error msg => ⟨e.state, e.trace ++ [req], .error msg⟩
    | .ok doc => ⟨e.state, e.trace ++ [req], .ok (parse_outlets_from_html doc)⟩

/-- The fallback of `async_fetch_metrics` (lines 181-191): when the page
omitted a total, fill it with the rounded sum of the per-outlet values
that are present. -/
def metrics_with_fallback (doc : HtmlDoc) : DeviceMetrics :=
  let metrics := parse_metrics_from_html doc
  if metrics.total_watts = none || metrics.total_amps = none then
    let outlets := parse_outlets_from_html doc
    let watts_sum := (outlets.filterMap OutletInfo.watts).sum
    let amps_sum := (outlets.filterMap OutletInfo.amps).sum
    { metrics with
      total_watts :=
        if metrics.total_watts = none then some (pyRound2 watts_sum) else metrics.total_watts,
      total_amps :=
        if metrics.total_amps = none then some (pyRound2 amps_sum) else metrics.total_amps }
  else metrics

/-- Model of `WattBoxClient.async_fetch_metrics`. -/
def async_fetch_metrics (dev : Device) (st : ClientState) : OpResult DeviceMetrics :=
  let e := ensure_logged_in dev st
  match e.err with
  | some msg => ⟨e.state, e.trace, .error msg⟩
  | none =>
    let (req, html) := getMainHtml dev e.state
    match html with
    | .error msg => ⟨e.state, e.trace ++ [req], .error msg⟩
    | .ok doc => ⟨e.state, e.trace ++ [req], .ok (metrics_with_fallback doc)⟩

/-- The shared body of `async_turn_on` / `async_turn_off` / `async_reset`
(three textually identical methods differing only in the path): a GET to
the command path with query parameter `o=<outlet number>`.  On the httpx
transport a 200/302 passes outright and anything else goes through
httpx's `raise_for_status`, which raises `HTTPStatusError` for every
non-2xx response; on the aiohttp transport aiohttp's `raise_for_status`
alone decides, raising only for statuses ≥ 400. -/
def runCommand (dev : Device) (st : ClientState) (k : CmdKind) (o : ℤ) : StepResult :=
  let e := ensure_logged_in dev st
  match e.err with
  | some msg => ⟨e.state, e.trace, some msg⟩
  | none =>
    if e.state.httpxActive then
      let req := Req.digestGetCmd k o
      let r := dev req
      if r.status = 200 || r.status = 302 then ⟨e.state, e.trace ++ [req], none⟩
      else if 200 ≤ r.status ∧ r.status < 300 then ⟨e.state, e.trace ++ [req], none⟩
      else ⟨e.state, e.trace ++ [req], some "HTTPStatusError"⟩
    else
      let req := Req.sessionGetCmd k o e.state.basicAuth
      let r := dev req
      if 400 ≤ r.status then ⟨e.state, e.trace ++ [req], some "HTTPStatusError"⟩
      else ⟨e.state, e.trace ++ [req], none⟩

/-- Model of `WattBoxClient.async_turn_on`. -/
def async_turn_on (dev : Device) (st : ClientState) (o : ℤ) : StepResult :=
  runCommand dev st .on o

/-- Model of `WattBoxClient.async_turn_off`. -/
def async_turn_off (dev : Device) (st : ClientState) (o : ℤ) : StepResult :=
  runCommand dev st .off o

/-- Model of `WattBoxClient.async_reset`. -/
def async_reset (dev : Device) (st : ClientState) (o : ℤ) : StepResult :=
  runCommand dev st .reset o

/-! ## Theorems: energy integrator -/

/-- One `observe` step never decreases the accumulator when the incoming
sample (if any) and the remembered last power (if any) are
non-negative. -/
theorem observe_totalEnergy_le (st : IntegratorState) (power : Option ℚ) (now : ℚ)
    (hInv : 0 ≤ st.lastPower.getD 0) (hp : 0 ≤ power.getD 0) :
    st.totalEnergy ≤ (observe st power now).totalEnergy := by
  cases power with
  | none => simp [observe]
  | some p =>
    simp only [Option.getD_some] at hp
    cases hP : st.lastPower with
    | none => simp [observe, hP]
    | some lastP =>
      rw [hP] at hInv
      simp only [Option.getD_some] at hInv
      cases hT : st.lastUpdate with
      | none => simp [observe, hP, hT]
      | some lastT =>
        simp only [observe, hP, hT]
        set dt := (now - lastT) / 3600 with hdt
        by_cases h1 : dt < 0
        · rw [if_pos h1]; simp
        rw [if_neg h1]
        by_cases h2 : dt > 24
        · rw [if_pos h2]
          have : (0:ℚ) ≤ p * 24 / 1000 := by positivity
          linarith
        rw [if_neg h2]
        by_cases h3 : dt > 0
        · rw [if_pos h3]
          have hnn : (0:ℚ) ≤ ((p + lastP) / 2) * dt / 1000 := by
            apply div_nonneg _ (by norm_num)
            exact mul_nonneg (div_nonneg (by linarith) (by norm_num)) (le_of_lt h3)
          linarith
        · rw [if_neg h3]; simp

/-- After an `observe` step with a non-negative sample, the remembered
last power stays non-negative. -/
theorem observe_lastPower_nonneg (st : IntegratorState) (power : Option ℚ) (now : ℚ)
    (hInv : 0 ≤ st.lastPower.getD 0) (hp : 0 ≤ power.getD 0) :
    0 ≤ (observe st power now).lastPower.getD 0 := by
  cases power with
  | none => simpa [observe] using hInv
  | some p => simpa [observe] using hp

/-- Monotonicity of the accumulator along any run of samples with
non-negative powers. -/
theorem observeAll_totalEnergy_le (samples : List (Option ℚ × ℚ)) :
    ∀ st : IntegratorState, 0 ≤ st.lastPower.getD 0 →
      (∀ s ∈ samples, 0 ≤ s.1.getD 0) →
      st.totalEnergy ≤ (observeAll st samples).totalEnergy := by
  induction samples with
  | nil => intro st _ _; simp [observeAll]
  | cons hd tl ih =>
    intro st hInv hall
    have hhd : 0 ≤ hd.1.getD 0 := hall hd (List.mem_cons_self hd tl)
    have step : observeAll st (hd :: tl) = observeAll (observe st hd.1 hd.2) tl := rfl
    rw [step]
    calc st.totalEnergy ≤ (observe st hd.1 hd.2).totalEnergy :=
          observe_totalEnergy_le st hd.1 hd.2 hInv hhd
      _ ≤ _ :=
          ih (observe st hd.1 hd.2)
            (observe_lastPower_nonneg st hd.1 hd.2 hInv hhd)
            (fun s hs => hall s (List.mem_cons_of_mem hd hs))

/-- C1: Monotonicity of the energy accumulator: along any sequence of
`_handle_coordinator_update` observe steps in which every non-nil power
sample is non-negative and timestamps are non-decreasing with at most 24
hours between consecutive samples (and the seeded last power, if any, is
non-negative), the cumulative energy total never decreases; among the
integrator operations only the external `restoreState` can overwrite the
accumulator downward. -/
theorem cumulative_energy_monotone (init : IntegratorState)
    (samples : List (Option ℚ × ℚ))
    (hInit : 0 ≤ init.lastPower.getD 0)
    (hPow : ∀ s ∈ samples, 0 ≤ s.1.getD 0)
    (hTime : List.Chain' (fun a b => a.2 ≤ b.2 ∧ b.2 - a.2 ≤ 24 * 3600) samples) :
    init.totalEnergy ≤ (observeAll init samples).totalEnergy :=
  observeAll_totalEnergy_le samples init hInit hPow

/-- Witness for C1: a fresh sensor observing 100 W at `t = 0` and 100 W
one hour later. -/
theorem cumulative_energy_monotone_w :
    (0:ℚ) ≤ (⟨some 0, none, 0⟩ : IntegratorState).lastPower.getD 0 ∧
    (∀ s ∈ [(some (100:ℚ), (0:ℚ)), (some 100, 3600)], 0 ≤ s.1.getD 0) ∧
    List.Chain' (fun a b => a.2 ≤ b.2 ∧ b.2 - a.2 ≤ 24 * 3600)
      [(some (100:ℚ), (0:ℚ)), (some 100, 3600)] ∧
    (⟨some 0, none, 0⟩ : IntegratorState).totalEnergy ≤
      (observeAll ⟨some 0, none, 0⟩ [(some 100, 0), (some 100, 3600)]).totalEnergy :=
  ⟨by decide, by decide,
   by rw [List.chain'_cons]
      exact ⟨⟨by norm_num, by norm_num⟩, List.chain'_singleton _⟩,
   cumulative_energy_monotone ⟨some 0, none, 0⟩ _ (by decide) (by decide)
     (by rw [List.chain'_cons]
         exact ⟨⟨by norm_num, by norm_num⟩, List.chain'_singleton _⟩)⟩

/-- C2: Trapezoidal step: a second-or-later observation with non-nil
power `p` and `0 ≤ dt ≤ 24` hours since the previous sample adds exactly
`((p + lastPower) / 2) * dt / 1000` kWh and records the new sample. -/
theorem trapezoid_step (st : IntegratorState) (p now lastP lastT : ℚ)
    (hP : st.lastPower = some lastP) (hT : st.lastUpdate = some lastT)
    (h0 : 0 ≤ (now - lastT) / 3600) (h24 : (now - lastT) / 3600 ≤ 24) :
    observe st (some p) now =
      { lastPower := some p, lastUpdate := some now,
        totalEnergy := st.totalEnergy + ((p + lastP) / 2) * ((now - lastT) / 3600) / 1000 } := by
  simp only [observe, hP, hT, IntegratorState.mk.injEq, true_and]
  set dt := (now - lastT) / 3600 with hdt
  rw [if_neg (not_lt.mpr h0), if_neg (not_lt.mpr h24)]
  by_cases hpos : dt > 0
  · rw [if_pos hpos]
  · rw [if_neg hpos]
    have h00 : dt = 0 := le_antisymm (not_lt.mp hpos) h0
    rw [h00]; ring

/-- Witness for C2: `observe(100 W, t0)` then `observe(100 W, t0 + 1 h)`
adds exactly `0.1` kWh. -/
theorem trapezoid_step_w :
    (⟨some 100, some 0, 0⟩ : IntegratorState).lastPower = some 100 ∧
    (⟨some 100, some 0, 0⟩ : IntegratorState).lastUpdate = some 0 ∧
    (0:ℚ) ≤ ((3600:ℚ) - 0) / 3600 ∧ ((3600:ℚ) - 0) / 3600 ≤ 24 ∧
    observe ⟨some 100, some 0, 0⟩ (some 100) 3600 =
      { lastPower := some 100, lastUpdate := some 3600,
        totalEnergy := 0 + ((100 + 100) / 2) * (((3600:ℚ) - 0) / 3600) / 1000 } ∧
    (0 + ((100 + 100 : ℚ) / 2) * (((3600:ℚ) - 0) / 3600) / 1000) = 1/10 :=
  ⟨rfl, rfl, by norm_num, by norm_num,
   trapezoid_step ⟨some 100, some 0, 0⟩ 100 3600 100 0 rfl rfl (by norm_num) (by norm_num),
   by norm_num⟩

/-- C3: Long-gap clamp: a second-or-later observation with non-nil
power `p` and a gap of more than 24 hours adds exactly `p * 24 / 1000`
kWh — the current power alone, clamped to 24 hours, independent of the
gap length and of the previous power — and records the new sample. -/
theorem long_gap_step (st : IntegratorState) (p now lastP lastT : ℚ)
    (hP : st.lastPower = some lastP) (hT : st.lastUpdate = some lastT)
    (h : 24 < (now - lastT) / 3600) :
    observe st (some p) now =
      { lastPower := some p, lastUpdate := some now,
        totalEnergy := st.totalEnergy + p * 24 / 1000 } := by
  simp only [observe, hP, hT, IntegratorState.mk.injEq, true_and]
  rw [if_neg (not_lt.mpr (by linarith : (0:ℚ) ≤ (now - lastT) / 3600)), if_pos h]

/-- Witness for C3: two 200 W observations 30 hours apart add exactly
`4.8` kWh, not `200 * 30 / 1000`. -/
theorem long_gap_step_w :
    (⟨some 200, some 0, 0⟩ : IntegratorState).lastPower = some 200 ∧
    (⟨some 200, some 0, 0⟩ : IntegratorState).lastUpdate = some 0 ∧
    (24:ℚ) < ((108000:ℚ) - 0) / 3600 ∧
    observe ⟨some 200, some 0, 0⟩ (some 200) 108000 =
      { lastPower := some 200, lastUpdate := some 108000,
        totalEnergy := 0 + (200:ℚ) * 24 / 1000 } ∧
    (0 + (200:ℚ) * 24 / 1000) = 24/5 ∧ ((24:ℚ)/5) ≠ 200 * 30 / 1000 :=
  ⟨rfl, rfl, by norm_num,
   long_gap_step ⟨some 200, some 0, 0⟩ 200 108000 200 0 rfl rfl (by norm_num),
   by norm_num, by norm_num⟩

/-- C4: Clock regression: a second-or-later observation with non-nil
power whose elapsed time since the previous sample is negative adds
nothing to the accumulator, yet still overwrites `lastPower` and
`lastUpdate` with the new observation — the accumulator is the only
integrator field the step leaves unchanged. -/
theorem clock_regression_step (st : IntegratorState) (p now lastP lastT : ℚ)
    (hP : st.lastPower = some lastP) (hT : st.lastUpdate = some lastT)
    (h : (now - lastT) / 3600 < 0) :
    observe st (some p) now =
      { lastPower := some p, lastUpdate := some now,
        totalEnergy := st.totalEnergy } := by
  simp only [observe, hP, hT, IntegratorState.mk.injEq, true_and]
  rw [if_pos h]; ring

/-- Witness for C4: a clock regression of 5 minutes (`dt = -300 s`). -/
theorem clock_regression_step_w :
    (⟨some 50, some 300, 7⟩ : IntegratorState).lastPower = some 50 ∧
    (⟨some 50, some 300, 7⟩ : IntegratorState).lastUpdate = some 300 ∧
    ((0:ℚ) - 300) / 3600 < 0 ∧
    observe ⟨some 50, some 300, 7⟩ (some 80) 0 =
      { lastPower := some 80, lastUpdate := some 0, totalEnergy := 7 } :=
  ⟨rfl, rfl, by norm_num,
   clock_regression_step ⟨some 50, some 300, 7⟩ 80 0 50 300 rfl rfl (by norm_num)⟩

/-! ## Theorems: HTML extractor -/

/-- C6: Totality of the extractor: both parse functions are total Lean
functions (no exception escapes: every `int`/`float` failure is turned
into a skipped block or an omitted field), a document in which no
selector matches — the abstraction of an empty or arbitrary non-HTML
input — yields an empty outlet sequence and all-nil metrics, and every
returned outlet comes from one successfully parsed block (malformed
blocks are skipped, never reported). -/
theorem extractor_total_on_any_input :
    parse_outlets_from_html emptyHtmlDoc = [] ∧
    parse_metrics_from_html emptyHtmlDoc = ⟨none, none, none⟩ ∧
    ∀ doc : HtmlDoc, ∀ o ∈ parse_outlets_from_html doc,
      ∃ b ∈ doc.outletBlocks, parseOutletBlock b = some o := by
  refine ⟨rfl, rfl, ?_⟩
  intro doc o ho
  have h1 : o ∈ doc.outletBlocks.filterMap parseOutletBlock :=
    (List.perm_insertionSort byNumber _).mem_iff.mp ho
  exact List.mem_filterMap.mp h1

/-- Sample document for the C6 witness: one well-formed block. -/
def c6doc : HtmlDoc :=
  ⟨[⟨some "1", some "Outlet A", some ⟨true, false⟩, []⟩], [], []⟩

/-- Witness for C6 at a concrete document and outlet. -/
theorem extractor_total_on_any_input_w :
    (⟨1, "Outlet A", true, false, none, none⟩ : OutletInfo) ∈ parse_outlets_from_html c6doc ∧
    ∃ b ∈ c6doc.outletBlocks,
      parseOutletBlock b = some ⟨1, "Outlet A", true, false, none, none⟩ :=
  ⟨by decide, extractor_total_on_any_input.2.2 c6doc _ (by decide)⟩

/-- Counterexample document for C5: two well-formed blocks carrying the
same outlet index `1`. -/
def c5doc : HtmlDoc :=
  ⟨[⟨some "1", some "A", some ⟨false, false⟩, []⟩,
    ⟨some "1", some "B", some ⟨false, false⟩, []⟩], [], []⟩

/-- Counterexample to C5 as stated: `parse_outlets_from_html` never
deduplicates, so a page repeating outlet index 1 yields the number
sequence `[1, 1]` — not pairwise distinct and not strictly ascending. -/
theorem c5_duplicate_numbers_cex :
    (parse_outlets_from_html c5doc).map OutletInfo.number = [1, 1] ∧
    ¬ ((parse_outlets_from_html c5doc).map OutletInfo.number).Nodup ∧
    ¬ ((parse_outlets_from_html c5doc).map OutletInfo.number).Sorted (· < ·) := by
  refine ⟨by decide, by decide, ?_⟩
  intro h
  rw [(by decide : (parse_outlets_from_html c5doc).map OutletInfo.number = [1, 1])] at h
  exact absurd (List.rel_of_sorted_cons h 1 (List.mem_singleton.mpr rfl)) (lt_irrefl 1)

/-- C5 (amended) The sequence returned by `parse_outlets_from_html`
is always sorted in non-decreasing order of the `number` field, whatever
the document order of the blocks; it is strictly ascending (equivalently,
the numbers are pairwise distinct) exactly on inputs whose successfully
parsed blocks already carry pairwise-distinct numbers — the parser sorts
but does not deduplicate. -/
theorem parse_outlets_sorted_by_number (doc : HtmlDoc) :
    ((parse_outlets_from_html doc).map OutletInfo.number).Sorted (· ≤ ·) ∧
    (((doc.outletBlocks.filterMap parseOutletBlock).map OutletInfo.number).Nodup →
      ((parse_outlets_from_html doc).map OutletInfo.number).Sorted (· < ·)) := by
  have hsorted : (parse_outlets_from_html doc).Sorted byNumber :=
    List.sorted_insertionSort byNumber _
  have hle : ((parse_outlets_from_html doc).map OutletInfo.number).Sorted (· ≤ ·) :=
    hsorted.map _ (fun _ _ hh => hh)
  refine ⟨hle, fun hnd => ?_⟩
  have hperm : ((parse_outlets_from_html doc).map OutletInfo.number).Perm
      ((doc.outletBlocks.filterMap parseOutletBlock).map OutletInfo.number) :=
    (List.perm_insertionSort byNumber _).map _
  exact List.Sorted.lt_of_le hle (hperm.nodup_iff.mpr hnd)

/-- Witness document for C5: blocks in document order `[3, 1, 2]`. -/
def c5wdoc : HtmlDoc :=
  ⟨[⟨some "3", some "C", some ⟨false, false⟩, []⟩,
    ⟨some "1", some "A", some ⟨false, false⟩, []⟩,
    ⟨some "2", some "B", some ⟨false, false⟩, []⟩], [], []⟩

/-- Witness for C5 (amended): blocks in document order `[3, 1, 2]` come
out strictly ascending as `[1, 2, 3]`. -/
theorem parse_outlets_sorted_by_number_w :
    ((c5wdoc.outletBlocks.filterMap parseOutletBlock).map OutletInfo.number).Nodup ∧
    ((parse_outlets_from_html c5wdoc).map OutletInfo.number).Sorted (· < ·) ∧
    (parse_outlets_from_html c5wdoc).map OutletInfo.number = [1, 2, 3] :=
  ⟨by decide, (parse_outlets_sorted_by_number c5wdoc).2 (by decide), by decide⟩

/-- Helper: `List.find?` returns the head of the first matching suffix. -/
theorem find?_append_first {α : Type} (p : α → Bool) (pre : List α) (c : α) (post : List α)
    (hpre : ∀ x ∈ pre, p x = false) (hc : p c = true) :
    (pre ++ c :: post).find? p = some c := by
  induction pre with
  | nil => simpa using List.find?_cons_of_pos post hc
  | cons a t ih =>
    have ha : p a = false := hpre a (List.mem_cons_self a t)
    rw [List.cons_append, List.find?_cons_of_neg _ (by simp [ha])]
    exact ih (fun x hx => hpre x (List.mem_cons_of_mem a hx))

/-- Counterexample document for C9: the first cell whose text contains
both tokens has no paired value cell, while a later cell qualifies fully. -/
def c9doc : HtmlDoc :=
  ⟨[], [⟨"POWER / CURRENT", none⟩, ⟨"POWER / CURRENT", some ["5W", "2A"]⟩], []⟩

/-- Counterexample to C9 as stated: `c9doc` contains a label cell with
both tokens whose paired cell holds the two numeric lines `5W` / `2A`
(which parse to `5` and `2`), yet `parse_metrics_from_html` returns nil
totals, because it inspects only the *first* cell whose text matches and
that cell has no paired value cell. -/
theorem c9_first_cell_shadows_cex :
    isPowerCurrentCell ⟨"POWER / CURRENT", some ["5W", "2A"]⟩ = true ∧
    c9doc.powerCells[1]? = some ⟨"POWER / CURRENT", some ["5W", "2A"]⟩ ∧
    pyFloat? (pyStrip (removeAllChar 'W' (pyStrip "5W"))) = some 5 ∧
    pyFloat? (pyStrip (removeAllChar 'A' (pyStrip "2A"))) = some 2 ∧
    (parse_metrics_from_html c9doc).total_watts = none ∧
    (parse_metrics_from_html c9doc).total_amps = none := by
  decide

/-- C9 (amended) Aggregate cell pairing: `parse_metrics_from_html`
inspects only the first cell whose text contains both the `POWER` and
`CURRENT` tokens.  When that cell has a paired value cell with at least
two lines, the first line — with every `W` removed and surrounding
whitespace stripped — becomes `total_watts` and the second line — with
every `A` removed — becomes `total_amps`, each field independently nil
when its line fails to parse as a float. -/
theorem metrics_first_power_cell (doc : HtmlDoc) (pre : List MetricCell) (c : MetricCell)
    (post : List MetricCell) (raw : List String) (s0 s1 : String) (rest : List String)
    (hsplit : doc.powerCells = pre ++ c :: post)
    (hpre : ∀ x ∈ pre, isPowerCurrentCell x = false)
    (hc : isPowerCurrentCell c = true)
    (hlines : c.pairLines = some raw)
    (hraw : raw = s0 :: s1 :: rest) :
    (parse_metrics_from_html doc).total_watts
        = pyFloat? (pyStrip (removeAllChar 'W' (pyStrip s0))) ∧
    (parse_metrics_from_html doc).total_amps
        = pyFloat? (pyStrip (removeAllChar 'A' (pyStrip s1))) := by
  have hfind : doc.powerCells.find? isPowerCurrentCell = some c := by
    rw [hsplit]; exact find?_append_first _ pre c post hpre hc
  simp only [parse_metrics_from_html, hfind, hlines, hraw, List.map_cons]
  refine ⟨?_, ?_⟩ <;> (first | rfl | trivial)

/-- The non-matching leading cell of the C9 witness page. -/
def c9cell0 : MetricCell := ⟨"other", none⟩

/-- The qualifying aggregate cell of the C9 witness page, paired with
`412 W` / `3 A` lines. -/
def c9cell1 : MetricCell := ⟨"POWER and CURRENT", some ["412 W", "3 A"]⟩

/-- Witness document for C9 (amended). -/
def c9wdoc : HtmlDoc := ⟨[], [c9cell0, c9cell1], []⟩

/-- Witness for C9 (amended) at a concrete page. -/
theorem metrics_first_power_cell_w :
    c9wdoc.powerCells = [c9cell0] ++ c9cell1 :: [] ∧
    (∀ x ∈ [c9cell0], isPowerCurrentCell x = false) ∧
    isPowerCurrentCell c9cell1 = true ∧
    c9cell1.pairLines = some ["412 W", "3 A"] ∧
    ((parse_metrics_from_html c9wdoc).total_watts
        = pyFloat? (pyStrip (removeAllChar 'W' (pyStrip "412 W"))) ∧
     (parse_metrics_from_html c9wdoc).total_amps
        = pyFloat? (pyStrip (removeAllChar 'A' (pyStrip "3 A")))) ∧
    (parse_metrics_from_html c9wdoc).total_watts = some 412 ∧
    (parse_metrics_from_html c9wdoc).total_amps = some 3 :=
  ⟨by decide, by decide, by decide, by decide,
   metrics_first_power_cell c9wdoc [c9cell0] c9cell1 [] ["412 W", "3 A"] "412 W" "3 A" []
     (by decide) (by decide) (by decide) (by decide) rfl,
   by decide, by decide⟩

/-- Counterexample document for C7: no aggregate cell; one outlet whose
watts parse to `0.125`. -/
def c7doc : HtmlDoc :=
  ⟨[⟨some "1", some "A", some ⟨true, false⟩, ["0.125W", "0A"]⟩], [], []⟩

/-- A device that accepts the Basic probe and always serves `c7doc`. -/
def c7dev : Device := fun _ => ⟨200, "", "", c7doc⟩

/-- Counterexample to C7 as stated: on a page with no aggregate totals
and outlet watts summing to `0.125`, `async_fetch_metrics` returns
`total_watts = 0.12` — the sum rounded (half-to-even) to 2 decimal
places by `round(watts_sum, 2)` — not the sum itself. -/
theorem c7_rounded_sum_cex :
    (parse_metrics_from_html c7doc).total_watts = none ∧
    ((parse_outlets_from_html c7doc).filterMap OutletInfo.watts).sum = 1/8 ∧
    (async_fetch_metrics c7dev initState).result
        = Except.ok (metrics_with_fallback c7doc) ∧
    (metrics_with_fallback c7doc).total_watts = some (3/25) ∧
    (3/25 : ℚ) ≠ 1/8 := by
  have hd125 : (digitsVal ['1', '2', '5'] : ℕ) = 125 := rfl
  have hd0 : (digitsVal ['0'] : ℕ) = 0 := rfl
  have hparse : parse_outlets_from_html c7doc =
      [⟨1, "A", true, false,
        some ((digitsVal ['0'] : ℚ) + (digitsVal ['1', '2', '5'] : ℚ) / 10 ^ 3),
        some ((digitsVal ['0'] : ℚ))⟩] := rfl
  have hsum : ((parse_outlets_from_html c7doc).filterMap OutletInfo.watts).sum = 1/8 := by
    rw [hparse]
    simp only [List.filterMap_cons, List.filterMap_nil, List.sum_cons, List.sum_nil, hd125, hd0]
    norm_num
  have hval : (metrics_with_fallback c7doc).total_watts
      = some (pyRound2 (((parse_outlets_from_html c7doc).filterMap OutletInfo.watts).sum)) :=
    rfl
  have hfloor : ⌊(1/8 * 100 : ℚ)⌋ = 12 := by
    rw [Int.floor_eq_iff] <;> norm_num
  have hround : pyRound2 (1/8) = 3/25 := by
    unfold pyRound2 roundHalfEvenInt
    rw [hfloor]
    norm_num [Int.even_iff]
  refine ⟨rfl, hsum, rfl, ?_, by norm_num⟩
  rw [hval, hsum, hround]

/-- C7 (amended) Derived aggregate totals: whenever
`parse_metrics_from_html` leaves `total_watts` (resp. `total_amps`) nil,
the metrics the client returns carry instead the sum of the non-nil
per-outlet watts (resp. amps) parsed from the same page — outlets whose
field is nil are excluded from the sum rather than counted as zero —
rounded half-to-even to 2 decimal places; a total the parser did find is
passed through unchanged. -/
theorem metrics_fallback_rounded_sums (doc : HtmlDoc) :
    ((parse_metrics_from_html doc).total_watts = none →
      (metrics_with_fallback doc).total_watts
        = some (pyRound2 (((parse_outlets_from_html doc).filterMap OutletInfo.watts).sum))) ∧
    ((parse_metrics_from_html doc).total_amps = none →
      (metrics_with_fallback doc).total_amps
        = some (pyRound2 (((parse_outlets_from_html doc).filterMap OutletInfo.amps).sum))) ∧
    (∀ w, (parse_metrics_from_html doc).total_watts = some w →
      (metrics_with_fallback doc).total_watts = some w) ∧
    (∀ a, (parse_metrics_from_html doc).total_amps = some a →
      (metrics_with_fallback doc).total_amps = some a) := by
  rcases hw : (parse_metrics_from_html doc).total_watts with _ | w <;>
    rcases ha : (parse_metrics_from_html doc).total_amps with _ | a <;>
      simp [metrics_with_fallback, hw, ha]

/-- Witness for C7 (amended) at a concrete page. -/
theorem metrics_fallback_rounded_sums_w :
    (parse_metrics_from_html c7doc).total_watts = none ∧
    (metrics_with_fallback c7doc).total_watts
      = some (pyRound2 (((parse_outlets_from_html c7doc).filterMap OutletInfo.watts).sum)) :=
  ⟨by decide, (metrics_fallback_rounded_sums c7doc).1 (by decide)⟩

/-! ## Theorems: device client -/

/-- A device whose firmware answers the Basic probe with a 401 Digest
challenge and accepts the Digest transport. -/
def digestDev : Device := fun r =>
  match r with
  | .basicProbe => ⟨401, "", "Digest realm=wb", emptyHtmlDoc⟩
  | _ => ⟨200, "", "", emptyHtmlDoc⟩

/-- Counterexample to C8 as stated: against `digestDev` the first
`async_fetch_outlets` confirms the Digest strategy (the resulting state
has the httpx client active), yet the next `async_fetch_outlets` on that
very state issues the Basic probe GET again — `_ensure_logged_in` keeps
no memo and re-runs the whole negotiation on every call. -/
theorem c8_renegotiates_every_call_cex :
    (async_fetch_outlets digestDev initState).state = ⟨false, true⟩ ∧
    (async_fetch_outlets digestDev initState).trace
      = [.basicProbe, .digestProbe, .digestGetMain] ∧
    Req.basicProbe ∈
      (async_fetch_outlets digestDev (async_fetch_outlets digestDev initState).state).trace := by
  refine ⟨rfl, rfl, by decide⟩

/-- C8 (amended) The negotiation is not memoized: every public
operation re-runs `_ensure_logged_in` in full, so every
fetch/command call — whatever the current client state, including one
where a strategy was already confirmed — starts by issuing the Basic
probe GET again. -/
theorem every_call_starts_with_basic_probe (dev : Device) (st : ClientState) :
    (ensure_logged_in dev st).trace.head? = some Req.basicProbe ∧
    (async_fetch_outlets dev st).trace.head? = some Req.basicProbe ∧
    (async_fetch_metrics dev st).trace.head? = some Req.basicProbe ∧
    ∀ (k : CmdKind) (o : ℤ), (runCommand dev st k o).trace.head? = some Req.basicProbe := by
  have h1 : (ensure_logged_in dev st).trace
      = Req.basicProbe :: (ensureAfterProbe dev st (dev .basicProbe)).trace := rfl
  refine ⟨by rw [h1]; rfl, ?_, ?_, ?_⟩
  · simp only [async_fetch_outlets]
    cases he : (ensure_logged_in dev st).err with
    | some msg => simp [h1]
    | none =>
      cases hg : (getMainHtml dev (ensure_logged_in dev st).state).2 with
      | error msg => simp [h1]
      | ok doc => simp [h1]
  · simp only [async_fetch_metrics]
    cases he : (ensure_logged_in dev st).err with
    | some msg => simp [h1]
    | none =>
      cases hg : (getMainHtml dev (ensure_logged_in dev st).state).2 with
      | error msg => simp [h1]
      | ok doc => simp [h1]
  · intro k o
    simp only [runCommand]
    cases he : (ensure_logged_in dev st).err with
    | some msg => simp [h1]
    | none =>
      by_cases hx : (ensure_logged_in dev st).state.httpxActive <;>
        simp only [hx, Bool.false_eq_true, if_true, if_false] <;>
          split_ifs <;> simp [h1]

/-- A device that accepts the Basic probe and answers every command GET
with HTTP 304. -/
def dev304 : Device := fun r =>
  match r with
  | .sessionGetCmd _ _ _ => ⟨304, "", "", emptyHtmlDoc⟩
  | _ => ⟨200, "", "", emptyHtmlDoc⟩

/-- Counterexample to C10 as stated: on the aiohttp transport a command
GET answered with status 304 — neither 200 nor 302 — raises nothing
(aiohttp's `raise_for_status` only raises for statuses ≥ 400), so
`async_turn_on` succeeds where the claim demands an `HttpStatusError`. -/
theorem c10_status_cex :
    (async_turn_on dev304 initState 3).err = none ∧
    (dev304 (Req.sessionGetCmd CmdKind.on 3 true)).status = 304 ∧
    (304 : Nat) ≠ 200 ∧ (304 : Nat) ≠ 302 := by
  decide

/-- C10 (amended) Command status contract: each of
turn on / turn off / reset issues — after the login/negotiation
requests — exactly one GET to its command path carrying the outlet
number `o`.  On the aiohttp transport it succeeds exactly when the
(final, redirect-followed) HTTP status is below 400; on the Digest
(httpx) transport it succeeds exactly when the status is 2xx or 302
(httpx's `raise_for_status` raises for every non-2xx status, and 302 is
special-cased before it).  Every other status raises an
`HttpStatusError`. -/
theorem command_status (dev : Device) (st : ClientState) (k : CmdKind) (o : ℤ) (req : Req)
    (h : (ensure_logged_in dev st).err = none)
    (hreq : req = if (ensure_logged_in dev st).state.httpxActive
        then Req.digestGetCmd k o
        else Req.sessionGetCmd k o (ensure_logged_in dev st).state.basicAuth) :
    (runCommand dev st k o).trace = (ensure_logged_in dev st).trace ++ [req] ∧
    ((runCommand dev st k o).err = none ↔
      (if (ensure_logged_in dev st).state.httpxActive
       then (200 ≤ (dev req).status ∧ (dev req).status < 300) ∨ (dev req).status = 302
       else (dev req).status < 400)) := by
  simp only [runCommand, h]
  by_cases hx : (ensure_logged_in dev st).state.httpxActive
  · simp only [hx, if_true] at hreq
    subst hreq
    simp only [hx, if_true]
    split_ifs with hc1 hc2
    · refine ⟨rfl, ?_⟩
      simp only [Bool.or_eq_true, decide_eq_true_eq] at hc1
      simp only [iff_true_intro rfl, true_iff]
      omega
    · refine ⟨rfl, ?_⟩
      simp only [iff_true_intro rfl, true_iff]
      omega
    · refine ⟨rfl, ?_⟩
      simp only [Bool.or_eq_true, decide_eq_true_eq, not_or] at hc1
      constructor
      · intro hcontra; exact absurd hcontra (by simp)
      · intro hgoal; omega
  · simp only [hx, Bool.false_eq_true, if_false] at hreq
    subst hreq
    simp only [hx, Bool.false_eq_true, if_false]
    split_ifs with hc
    · refine ⟨rfl, ?_⟩
      constructor
      · intro hcontra; exact absurd hcontra (by simp)
      · intro hlt; omega
    · refine ⟨rfl, ?_⟩
      simp only [iff_true_intro rfl, true_iff]
      omega

/-- A fully permissive device for the C10 witness. -/
def devOk : Device := fun _ => ⟨200, "", "", emptyHtmlDoc⟩

/-- Witness for C10 (amended): a Basic-confirmed client turning outlet 3
on against a device that answers 200. -/
theorem command_status_w :
    (ensure_logged_in devOk initState).err = none ∧
    (Req.sessionGetCmd CmdKind.on 3 true
      = if (ensure_logged_in devOk initState).state.httpxActive
        then Req.digestGetCmd CmdKind.on 3
        else Req.sessionGetCmd CmdKind.on 3 (ensure_logged_in devOk initState).state.basicAuth) ∧
    ((runCommand devOk initState CmdKind.on 3).trace
        = (ensure_logged_in devOk initState).trace ++ [Req.sessionGetCmd CmdKind.on 3 true] ∧
     ((runCommand devOk initState CmdKind.on 3).err = none ↔
        (if (ensure_logged_in devOk initState).state.httpxActive
         then (200 ≤ (devOk (Req.sessionGetCmd CmdKind.on 3 true)).status ∧
               (devOk (Req.sessionGetCmd CmdKind.on 3 true)).status < 300) ∨
              (devOk (Req.sessionGetCmd CmdKind.on 3 true)).status = 302
         else (devOk (Req.sessionGetCmd CmdKind.on 3 true)).status < 400))) :=
  ⟨by decide, by decide,
   command_status devOk initState CmdKind.on 3 (Req.sessionGetCmd CmdKind.on 3 true)
     (by decide) (by decide)⟩

end WB800
